import Mathlib

/-!
Shallow embedding of the smart-building-emissions calculation core:
the component emission formulas (energy, material, water), emission-factor
resolution, the component factory's metadata validation, and Building
aggregation (modification application, totals, breakdown, percentages).
Python floats are modelled as exact rationals; Python dicts as
insertion-ordered association lists whose keys stay unique under assignment.
-/

namespace SBE

/-- A Python scalar stored in a component metadata mapping: a number,
a string, or `None`. -/
inductive Val where
  | num (q : ℚ)
  | str (s : String)
  | none
  deriving Repr, DecidableEq

/-- Python `d[k]`-style lookup on an association-list dict. -/
def dictGet? {α : Type} (d : List (String × α)) (k : String) : Option α :=
  match d with
  | [] => Option.none
  | (k', v) :: rest => if k' = k then some v else dictGet? rest k

/-- Python `d.get(k, default)`. -/
def dictGetD {α : Type} (d : List (String × α)) (k : String) (dflt : α) : α :=
  (dictGet? d k).getD dflt

/-- Python `k in d`. -/
def dictHasKey {α : Type} (d : List (String × α)) (k : String) : Bool :=
  (dictGet? d k).isSome

/-- Python `d[k] = v`: overwrite in place when the key exists, else append. -/
def dictSet {α : Type} (d : List (String × α)) (k : String) (v : α) : List (String × α) :=
  match d with
  | [] => [(k, v)]
  | (k', v') :: rest => if k' = k then (k', v) :: rest else (k', v') :: dictSet rest k v

/-- Python `d.update(new)`: fold assignment over the new bindings. -/
def dictUpdate {α : Type} (d new : List (String × α)) : List (String × α) :=
  new.foldl (fun acc kv => dictSet acc kv.1 kv.2) d

/-- The error conditions raised by the core.  In the Python source these are
`ValueError`/`TypeError` instances with the recorded messages; the
constructors name the distinct raise sites. -/
inductive Err where
  | factorNotFound (key : String)
  | ambiguousFactor (key : String)
  | missingParameter (ctx : String) (key : String)
  | invalidParameter (msg : String)
  | typeError (msg : String)
  | invalidComponentSpec (missing : List String)
  | unknownComponentType (t : String)
  deriving Repr, DecidableEq

/-- Python `str(e)` of the raised exception (used by the breakdown's
`error` field). -/
def Err.msg : Err → String
  | .factorNotFound key => "No emission factors found for " ++ key
  | .ambiguousFactor key => "Multiple emission factors found for " ++ key
  | .missingParameter ctx key =>
      "Missing required parameter for " ++ ctx ++ " calculation: '" ++ key ++ "'"
  | .invalidParameter m => m
  | .typeError m => m
  | .invalidComponentSpec missing => "Missing required metadata: " ++ toString missing
  | .unknownComponentType t => "Unknown component type: " ++ t

/-- Python `str(v)` of a metadata value (used in factor-lookup keys and
error messages). -/
def valStr : Val → String
  | .num q => toString q
  | .str s => s
  | .none => "None"

/-- Python `float(v)`: numbers pass through, strings/None raise. -/
def Val.toNum : Val → Except Err ℚ
  | .num q => .ok q
  | .str s => .error (.invalidParameter ("could not convert string to float: '" ++ s ++ "'"))
  | .none => .error (.typeError "float() argument must be a string or a real number, not 'NoneType'")

/-- Python truthiness of a metadata value. -/
def Val.truthy : Val → Bool
  | .num q => decide (q ≠ 0)
  | .str s => decide (s ≠ "")
  | .none => false

/-- Python `v > 0`: numeric values compare; `None`/strings raise `TypeError`. -/
def Val.gtZero : Val → Except Err Bool
  | .num q => .ok (decide (0 < q))
  | .str _ => .error (.typeError "'>' not supported between instances of 'str' and 'int'")
  | .none => .error (.typeError "'>' not supported between instances of 'NoneType' and 'int'")

/-- Python `v <= 0`: numeric values compare; `None`/strings raise `TypeError`. -/
def Val.leZero : Val → Except Err Bool
  | .num q => .ok (decide (q ≤ 0))
  | .str _ => .error (.typeError "'<=' not supported between instances of 'str' and 'int'")
  | .none => .error (.typeError "'<=' not supported between instances of 'NoneType' and 'int'")

/-- Python `round(x, 2)` modelled over exact rationals. -/
def round2 (x : ℚ) : ℚ := (round (x * 100) : ℤ) / 100

/-- A persisted emission-factor record (`EmissionFactorRecord`): the fields
the calculation core reads. -/
structure FactorRecord where
  name : String
  category : String
  emission_factor : ℚ
  deriving Repr, DecidableEq

/-- `EmissionFactorRepository.get_by_name_and_category`: an equality-filtered
read over the factors table, returning every matching record. -/
def lookupFactors (store : List FactorRecord) (name : String) (category : String) :
    List FactorRecord :=
  store.filter (fun r => r.name == name && r.category == category)

/-- A component metadata mapping (`self.metadata` in the Python classes). -/
abbrev MetaDict := List (String × Val)

/-- Python `self.metadata[k]` inside a component's `calculate_emissions`:
a `KeyError` there is re-raised as the variant's missing-parameter
`ValueError`, naming the key. -/
def requireKey (m : MetaDict) (ctx key : String) : Except Err Val :=
  match dictGet? m key with
  | some v => .ok v
  | Option.none => .error (.missingParameter ctx key)

/-- `EnergyComponent._get_energy_emission_factor`: look up
`metadata['energy_source']` in the energy category; zero matches and
multiple matches both raise. -/
def getEnergyEmissionFactor (store : List FactorRecord) (m : MetaDict) : Except Err ℚ := do
  let src ← requireKey m "energy" "energy_source"
  match lookupFactors store (valStr src) "energy" with
  | [] => .error (.factorNotFound (valStr src))
  | [r] => .ok r.emission_factor
  | _ :: _ :: _ => .error (.ambiguousFactor (valStr src))

/-- `EnergyComponent.calculate_emissions`:
`round((annual_consumption_kwh / efficiency) * factor * quantity
       + embodied_emissions(default 0) * quantity, 2)`;
a zero efficiency raises (Python `ZeroDivisionError` re-raised as
`ValueError("Efficiency cannot be zero")`). -/
def energyCalculateEmissions (store : List FactorRecord) (m : MetaDict) (quantity : ℚ) :
    Except Err ℚ := do
  let emission_factor ← getEnergyEmissionFactor store m
  let annual ← (← requireKey m "energy" "annual_consumption_kwh").toNum
  let efficiency ← (← requireKey m "energy" "efficiency").toNum
  if efficiency = 0 then
    .error (.invalidParameter "Efficiency cannot be zero")
  else
    let effective_consumption := annual / efficiency
    let emissions := effective_consumption * emission_factor * quantity
    let embodied ← (dictGetD m "embodied_emissions" (.num 0)).toNum
    .ok (round2 (emissions + embodied * quantity))

/-- `MaterialComponent._get_material_emission_factor`: look up
`metadata['material_name']` in the material category. -/
def getMaterialEmissionFactor (store : List FactorRecord) (m : MetaDict) : Except Err ℚ := do
  let mat ← requireKey m "material" "material_name"
  match lookupFactors store (valStr mat) "material" with
  | [] => .error (.factorNotFound (valStr mat))
  | [r] => .ok r.emission_factor
  | _ :: _ :: _ => .error (.ambiguousFactor (valStr mat))

/-- The base (pre-recycling, pre-transport) term of
`MaterialComponent.calculate_emissions`: when `density_kg_m3` and
`volume_m3` are both present and truthy, `volume * density * factor`
(the quantity argument is not used); otherwise `quantity * factor`. -/
def materialBaseEmissions (m : MetaDict) (quantity emission_factor : ℚ) : Except Err ℚ :=
  if (dictGetD m "density_kg_m3" Val.none).truthy
      && (dictGetD m "volume_m3" Val.none).truthy then do
    let volume ← (dictGetD m "volume_m3" Val.none).toNum
    let density ← (dictGetD m "density_kg_m3" Val.none).toNum
    .ok (volume * density * emission_factor)
  else
    .ok (quantity * emission_factor)

/-- The recycling block of `MaterialComponent.calculate_emissions`:
`recycling_rate = metadata.get('recycling_rate', 0)`; when
`recycling_rate > 0`, multiply by `(1 - recycling_rate / 100)`.
The Python `>` comparison raises `TypeError` on a non-numeric value. -/
def applyRecyclingRate (m : MetaDict) (emissions : ℚ) : Except Err ℚ := do
  let rate := dictGetD m "recycling_rate" (.num 0)
  if (← rate.gtZero) then do
    let r ← rate.toNum
    .ok (emissions * (1 - r / 100))
  else
    .ok emissions

/-- `MaterialComponent._calculate_transport_emissions`:
`quantity * transport_distance_km(default 0) * 0.0001`, and `0` whenever
the distance is `<= 0`. -/
def calculateTransportEmissions (m : MetaDict) (quantity : ℚ) : Except Err ℚ := do
  let distance := dictGetD m "transport_distance_km" (.num 0)
  if (← distance.leZero) then
    .ok 0
  else do
    let d ← distance.toNum
    .ok (quantity * d * (1 / 10000))

/-- `MaterialComponent.calculate_emissions`: factor lookup, base term,
recycling reduction, transport term, final rounding to 2 decimals. -/
def materialCalculateEmissions (store : List FactorRecord) (m : MetaDict) (quantity : ℚ) :
    Except Err ℚ := do
  let emission_factor ← getMaterialEmissionFactor store m
  let base ← materialBaseEmissions m quantity emission_factor
  let reduced ← applyRecyclingRate m base
  let transport ← calculateTransportEmissions m quantity
  .ok (round2 (reduced + transport))

/-- `WaterComponent._get_water_emission_factor`: look up
`metadata['treatment_type']` in the water category. -/
def getWaterEmissionFactor (store : List FactorRecord) (m : MetaDict) : Except Err ℚ := do
  let t ← requireKey m "water" "treatment_type"
  match lookupFactors store (valStr t) "water" with
  | [] => .error (.factorNotFound (valStr t))
  | [r] => .ok r.emission_factor
  | _ :: _ :: _ => .error (.ambiguousFactor (valStr t))

/-- `WaterComponent._calculate_pumping_emissions`:
`pumping_energy_kwh(default 0) * 0.5`, and `0` whenever the energy is
`<= 0`. -/
def calculatePumpingEmissions (m : MetaDict) : Except Err ℚ := do
  let pumping := dictGetD m "pumping_energy_kwh" (.num 0)
  if (← pumping.leZero) then
    .ok 0
  else do
    let p ← pumping.toNum
    .ok (p * (1 / 2))

/-- `WaterComponent.calculate_emissions`:
`round(annual_consumption_liters * water_treatment_factor * factor * quantity
       + pumping * quantity, 2)`. -/
def waterCalculateEmissions (store : List FactorRecord) (m : MetaDict) (quantity : ℚ) :
    Except Err ℚ := do
  let emission_factor ← getWaterEmissionFactor store m
  let annual ← (← requireKey m "water" "annual_consumption_liters").toNum
  let treatment ← (← requireKey m "water" "water_treatment_factor").toNum
  let effective_consumption := annual * treatment
  let emissions := effective_consumption * emission_factor * quantity
  let pumping ← calculatePumpingEmissions m
  .ok (round2 (emissions + pumping * quantity))

/-- A rehydrated component instance: the `Component` base class state
(`name`, `component_type`, `parameters`) plus the concrete variant's
`metadata` mapping.  The variant set is closed (energy, material, water),
so virtual dispatch is modelled by the `component_type` tag. -/
structure Component where
  name : String
  component_type : String
  metadata : MetaDict
  parameters : MetaDict
  deriving Repr, DecidableEq

/-- `Component.calculate_emissions` (virtual dispatch on the concrete
variant).  Each variant's method reads only its `metadata` mapping. -/
def Component.calculate_emissions (store : List FactorRecord) (c : Component) (quantity : ℚ) :
    Except Err ℚ :=
  if c.component_type = "energy" then energyCalculateEmissions store c.metadata quantity
  else if c.component_type = "material" then materialCalculateEmissions store c.metadata quantity
  else if c.component_type = "water" then waterCalculateEmissions store c.metadata quantity
  else .error (.unknownComponentType c.component_type)

/-- `Component.update_parameters`: `self.parameters.update(new_parameters)`. -/
def Component.update_parameters (c : Component) (new_parameters : MetaDict) : Component :=
  { c with parameters := dictUpdate c.parameters new_parameters }

/-- `ComponentFactory._validate_metadata`: collect every required key
missing from the metadata mapping; raise listing all of them. -/
def validateMetadata (required_params : List String) (metadata : MetaDict) : Except Err Unit :=
  let missing_params := required_params.filter (fun p => !(dictHasKey metadata p))
  if missing_params.isEmpty then .ok () else .error (.invalidComponentSpec missing_params)

/-- `ComponentFactory._create_energy_component` followed by
`EnergyComponent.__init__`: validate, then copy exactly the three listed
keys into the instance's metadata (the base class starts `parameters`
empty). -/
def createEnergyComponent (name : String) (metadata : MetaDict) : Except Err Component := do
  validateMetadata ["energy_source", "efficiency", "annual_consumption_kwh"] metadata
  .ok { name := name, component_type := "energy",
        metadata := [("energy_source", dictGetD metadata "energy_source" Val.none),
                     ("efficiency", dictGetD metadata "efficiency" Val.none),
                     ("annual_consumption_kwh", dictGetD metadata "annual_consumption_kwh" Val.none)],
        parameters := [] }

/-- `ComponentFactory._create_material_component` followed by
`MaterialComponent.__init__`: all three keys are required by the factory's
validation list. -/
def createMaterialComponent (name : String) (metadata : MetaDict) : Except Err Component := do
  validateMetadata ["material_name", "density_kg_m3", "volume_m3"] metadata
  .ok { name := name, component_type := "material",
        metadata := [("material_name", dictGetD metadata "material_name" Val.none),
                     ("density_kg_m3", dictGetD metadata "density_kg_m3" Val.none),
                     ("volume_m3", dictGetD metadata "volume_m3" Val.none)],
        parameters := [] }

/-- `ComponentFactory._create_water_component` followed by
`WaterComponent.__init__`. -/
def createWaterComponent (name : String) (metadata : MetaDict) : Except Err Component := do
  validateMetadata ["annual_consumption_liters", "water_treatment_factor", "treatment_type"] metadata
  .ok { name := name, component_type := "water",
        metadata := [("annual_consumption_liters", dictGetD metadata "annual_consumption_liters" Val.none),
                     ("water_treatment_factor", dictGetD metadata "water_treatment_factor" Val.none),
                     ("treatment_type", dictGetD metadata "treatment_type" Val.none)],
        parameters := [] }

/-- `ComponentFactory.create_component`: lower-case the type tag and
dispatch; unknown tags raise. -/
def createComponent (component_type name : String) (metadata : MetaDict) : Except Err Component :=
  let ct := component_type.toLower
  if ct = "energy" then createEnergyComponent name metadata
  else if ct = "material" then createMaterialComponent name metadata
  else if ct = "water" then createWaterComponent name metadata
  else .error (.unknownComponentType ct)

/-- The digital-twin `Building` aggregate. -/
structure Building where
  name : String
  location : Option String
  components : List (Component × ℚ)
  modifications : List (String × MetaDict)
  deriving Repr

/-- `Building.apply_modifications`: store the mapping, then for each
component whose name has a non-empty entry, merge those keys into the
component's `parameters` via `update_parameters`. -/
def Building.apply_modifications (b : Building) (modifications : List (String × MetaDict)) :
    Building :=
  { b with
    modifications := modifications,
    components := b.components.map (fun cq =>
      let component_mods := dictGetD modifications cq.1.name []
      if component_mods.isEmpty then cq
      else (cq.1.update_parameters component_mods, cq.2)) }

/-- One entry of the per-component breakdown dict.  A successful entry has
`percentage` (initially `0`) and no `error` key; a failed entry has
`error` and no `percentage` key. -/
structure Entry where
  emissions : ℚ
  quantity : ℚ
  type : String
  percentage : Option ℚ
  error : Option String
  deriving Repr, DecidableEq

/-- One iteration of the component loop in
`Building.calculate_total_emissions`: on success add the emissions to the
running total and record the entry; on failure record a zero-emissions
entry carrying the error message and keep the total unchanged. -/
def calcStep (store : List FactorRecord) (acc : ℚ × List (String × Entry))
    (cq : Component × ℚ) : ℚ × List (String × Entry) :=
  match Component.calculate_emissions store cq.1 cq.2 with
  | .ok e =>
      (acc.1 + e,
       dictSet acc.2 cq.1.name
         { emissions := e, quantity := cq.2, type := cq.1.component_type,
           percentage := some 0, error := Option.none })
  | .error err =>
      (acc.1,
       dictSet acc.2 cq.1.name
         { emissions := 0, quantity := cq.2, type := cq.1.component_type,
           percentage := Option.none, error := some err.msg })

/-- The second-pass update of one breakdown entry: entries with
`emissions > 0` get `percentage = round(emissions / total * 100, 2)`. -/
def percentEntry (total : ℚ) (e : Entry) : Entry :=
  if e.emissions > 0 then
    { e with percentage := some (round2 (e.emissions / total * 100)) }
  else e

/-- The percentage pass of `Building.calculate_total_emissions`, guarded by
`total_emissions > 0`. -/
def assignPercentages (total : ℚ) (bd : List (String × Entry)) : List (String × Entry) :=
  if total > 0 then bd.map (fun ke => (ke.1, percentEntry total ke.2)) else bd

/-- `Building.calculate_total_emissions`: fold the component loop, run the
percentage pass with the pre-rounding total, and round the returned total
to 2 decimals. -/
def Building.calculate_total_emissions (store : List FactorRecord) (b : Building) :
    ℚ × List (String × Entry) :=
  let acc := b.components.foldl (calcStep store) (0, [])
  (round2 acc.1, assignPercentages acc.1 acc.2)

/-- State-threaded form of a component's `calculate_emissions` call: the
method bodies (and the helpers they call) contain no attribute assignment,
so the component after the call is the component before it. -/
def Component.calculate_emissions_st (store : List FactorRecord) (c : Component) (quantity : ℚ) :
    Except Err ℚ × Component :=
  (Component.calculate_emissions store c quantity, c)

/-- State-threaded form of `Building.calculate_total_emissions`: the result
together with the building as left by the call (each component replaced by
its post-call state; the method itself assigns no attribute of `self`). -/
def Building.calculate_total_emissions_st (store : List FactorRecord) (b : Building) :
    (ℚ × List (String × Entry)) × Building :=
  (Building.calculate_total_emissions store b,
   { b with components :=
       b.components.map (fun cq => ((Component.calculate_emissions_st store cq.1 cq.2).2, cq.2)) })

/-- The emissions a component contributes to the running total: its computed
value on success, `0` on failure. -/
def okEmissions (store : List FactorRecord) (c : Component) (q : ℚ) : ℚ :=
  match Component.calculate_emissions store c q with
  | .ok e => e
  | .error _ => 0

/-- Specification-side sum of only the successfully computed component
emissions, in iteration order. -/
def specSuccessSum (store : List FactorRecord) : List (Component × ℚ) → ℚ
  | [] => 0
  | cq :: l => okEmissions store cq.1 cq.2 + specSuccessSum store l

/-- Specification-side restatement of the breakdown entry one loop
iteration records for a component. -/
def entryFor (store : List FactorRecord) (c : Component) (q : ℚ) : Entry :=
  match Component.calculate_emissions store c q with
  | .ok e =>
      { emissions := e, quantity := q, type := c.component_type,
        percentage := some 0, error := Option.none }
  | .error err =>
      { emissions := 0, quantity := q, type := c.component_type,
        percentage := Option.none, error := some err.msg }

/-- The factory's per-type `required_params` lists. -/
def requiredMetadataKeys (component_type : String) : List String :=
  if component_type = "energy" then ["energy_source", "efficiency", "annual_consumption_kwh"]
  else if component_type = "material" then ["material_name", "density_kg_m3", "volume_m3"]
  else if component_type = "water" then ["annual_consumption_liters", "water_treatment_factor", "treatment_type"]
  else []

/-- A small concrete emission-factor table used by witnesses. -/
def egStore : List FactorRecord :=
  [{ name := "electricity", category := "energy", emission_factor := 1 / 2 },
   { name := "concrete", category := "material", emission_factor := 12 / 100 }]

/-- Concrete energy metadata (the spec's worked scenario). -/
def egEnergyMeta : MetaDict :=
  [("energy_source", .str "electricity"), ("efficiency", .num (1 / 2)),
   ("annual_consumption_kwh", .num 1000)]

/-- Concrete material metadata (the spec's worked scenario). -/
def egMaterialMeta : MetaDict :=
  [("material_name", .str "concrete"), ("density_kg_m3", .num 2400), ("volume_m3", .num 10)]

/-- A concrete energy component. -/
def egHvac : Component :=
  { name := "hvac", component_type := "energy", metadata := egEnergyMeta, parameters := [] }

/-- The same component with `efficiency` overridden to `1` in its metadata. -/
def egHvacEff1 : Component :=
  { name := "hvac", component_type := "energy",
    metadata := dictSet egEnergyMeta "efficiency" (.num 1), parameters := [] }

/-- An energy component whose factor lookup finds no record. -/
def egBroken : Component :=
  { name := "boiler", component_type := "energy",
    metadata := [("energy_source", .str "coal")], parameters := [] }

/-- A concrete material component. -/
def egSlab : Component :=
  { name := "slab", component_type := "material", metadata := egMaterialMeta, parameters := [] }

/-- A one-component building. -/
def egB1 : Building :=
  { name := "hq", location := Option.none, components := [(egHvac, 1)], modifications := [] }

/-- A building with one good and one failing component. -/
def egBuilding : Building :=
  { name := "hq", location := Option.none,
    components := [(egHvac, 1), (egBroken, 2)], modifications := [] }

/-- A building with two components sharing the name "hvac". -/
def egDupBuilding : Building :=
  { name := "hq", location := Option.none,
    components := [(egHvac, 1), (egHvacEff1, 3)], modifications := [] }

/-! ### Association-list dictionary lemmas -/

theorem dictGet?_set_self {α : Type} (d : List (String × α)) (k : String) (v : α) :
    dictGet? (dictSet d k v) k = some v := by
  induction d with
  | nil => simp [dictSet, dictGet?]
  | cons kv rest ih =>
      unfold dictSet
      by_cases h : kv.1 = k
      · simp [h, dictGet?]
      · simp [h, dictGet?, ih]

theorem dictGet?_set_ne {α : Type} (d : List (String × α)) (k k' : String) (v : α)
    (h : k' ≠ k) : dictGet? (dictSet d k v) k' = dictGet? d k' := by
  induction d with
  | nil =>
      unfold dictSet dictGet?
      rw [if_neg (fun hh => h hh.symm)]
      rfl
  | cons kv rest ih =>
      unfold dictSet
      by_cases hk : kv.1 = k
      · rw [if_pos hk]
        unfold dictGet?
        have hne : ¬ kv.1 = k' := by rw [hk]; exact fun hh => h hh.symm
        rw [if_neg hne, if_neg hne]
      · rw [if_neg hk]
        unfold dictGet?
        by_cases hk' : kv.1 = k'
        · rw [if_pos hk', if_pos hk']
        · rw [if_neg hk', if_neg hk', ih]

theorem dictGet?_map {α β : Type} (f : α → β) (d : List (String × α)) (k : String) :
    dictGet? (d.map (fun ke => (ke.1, f ke.2))) k = (dictGet? d k).map f := by
  induction d with
  | nil => simp [dictGet?]
  | cons kv rest ih =>
      unfold dictGet?
      by_cases h : kv.1 = k
      · simp [h]
      · simp [h, ih]

theorem dictGet?_mem {α : Type} {d : List (String × α)} {k : String} {v : α}
    (h : dictGet? d k = some v) : (k, v) ∈ d := by
  induction d with
  | nil => simp [dictGet?] at h
  | cons kv rest ih =>
      unfold dictGet? at h
      by_cases hk : kv.1 = k
      · simp only [hk, if_true, Option.some.injEq] at h
        refine List.mem_cons.mpr (Or.inl ?_)
        rcases kv with ⟨a, b⟩
        simp only at hk h
        rw [← hk, ← h]
      · simp only [hk, if_false] at h
        exact List.mem_cons_of_mem _ (ih h)

theorem mem_dictSet {α : Type} {d : List (String × α)} {k : String} {v : α}
    {kv' : String × α} (h : kv' ∈ dictSet d k v) : kv' = (k, v) ∨ kv' ∈ d := by
  induction d with
  | nil => simp [dictSet] at h; simp [h]
  | cons kv rest ih =>
      unfold dictSet at h
      by_cases hk : kv.1 = k
      · simp only [hk, if_true] at h
        rcases List.mem_cons.mp h with h1 | h2
        · left; rw [h1]
        · right; exact List.mem_cons_of_mem _ h2
      · simp only [hk, if_false] at h
        rcases List.mem_cons.mp h with h1 | h2
        · right; rw [h1]; exact List.mem_cons_self _ _
        · rcases ih h2 with h3 | h4
          · left; exact h3
          · right; exact List.mem_cons_of_mem _ h4

theorem dictGet?_eq_none_of_not_mem_keys {α : Type} {d : List (String × α)} {k : String}
    (h : k ∉ d.map Prod.fst) : dictGet? d k = Option.none := by
  induction d with
  | nil => simp [dictGet?]
  | cons kv rest ih =>
      simp only [List.map_cons, List.mem_cons] at h
      push_neg at h
      unfold dictGet?
      rw [if_neg (fun hh => h.1 hh.symm), ih h.2]

theorem keys_dictSet {α : Type} (d : List (String × α)) (k : String) (v : α) :
    (dictSet d k v).map Prod.fst
      = if (dictGet? d k).isSome then d.map Prod.fst else d.map Prod.fst ++ [k] := by
  induction d with
  | nil => simp [dictSet, dictGet?]
  | cons kv rest ih =>
      unfold dictSet dictGet?
      by_cases hk : kv.1 = k
      · simp [hk]
      · simp only [hk, if_false, List.map_cons, ih]
        by_cases hs : (dictGet? rest k).isSome
        · simp [hs]
        · simp [hs]

theorem isSome_dictGet?_of_mem_keys {α : Type} {d : List (String × α)} {k : String}
    (h : k ∈ d.map Prod.fst) : (dictGet? d k).isSome := by
  induction d with
  | nil => simp at h
  | cons kv rest ih =>
      unfold dictGet?
      by_cases hk : kv.1 = k
      · simp [hk]
      · simp only [List.map_cons, List.mem_cons] at h
        rcases h with h1 | h2
        · exact absurd h1.symm hk
        · simp [hk, ih h2]

theorem nodup_keys_dictSet {α : Type} {d : List (String × α)} (k : String) (v : α)
    (h : (d.map Prod.fst).Nodup) : ((dictSet d k v).map Prod.fst).Nodup := by
  rw [keys_dictSet]
  by_cases hs : (dictGet? d k).isSome
  · simp [hs, h]
  · have hnotmem : k ∉ d.map Prod.fst := fun hmem => hs (isSome_dictGet?_of_mem_keys hmem)
    simp [hs, List.nodup_append, h, hnotmem]

/-! ### Aggregation-loop lemmas -/

theorem calcStep_fst (store : List FactorRecord) (acc : ℚ × List (String × Entry))
    (cq : Component × ℚ) : (calcStep store acc cq).1 = acc.1 + okEmissions store cq.1 cq.2 := by
  unfold calcStep okEmissions
  cases Component.calculate_emissions store cq.1 cq.2 with
  | ok e => rfl
  | error err => simp

theorem calcStep_snd (store : List FactorRecord) (acc : ℚ × List (String × Entry))
    (cq : Component × ℚ) :
    (calcStep store acc cq).2 = dictSet acc.2 cq.1.name (entryFor store cq.1 cq.2) := by
  unfold calcStep entryFor
  cases Component.calculate_emissions store cq.1 cq.2 with
  | ok e => rfl
  | error err => rfl

theorem foldl_calcStep_fst (store : List FactorRecord) (l : List (Component × ℚ)) :
    ∀ t bd, (l.foldl (calcStep store) (t, bd)).1 = t + specSuccessSum store l := by
  induction l with
  | nil => intro t bd; simp [specSuccessSum]
  | cons cq rest ih =>
      intro t bd
      rw [List.foldl_cons]
      have hstep : calcStep store (t, bd) cq
          = ((t + okEmissions store cq.1 cq.2), (calcStep store (t, bd) cq).2) := by
        have h1 := calcStep_fst store (t, bd) cq
        rcases hc : calcStep store (t, bd) cq with ⟨x, y⟩
        rw [hc] at h1
        simp at h1
        simp [h1]
      rw [hstep, ih]
      have hs : specSuccessSum store (cq :: rest)
          = okEmissions store cq.1 cq.2 + specSuccessSum store rest := rfl
      rw [hs]
      ring

theorem foldl_calcStep_get_of_not_mem (store : List FactorRecord) (n : String)
    (l : List (Component × ℚ)) (h : ∀ cq ∈ l, cq.1.name ≠ n) :
    ∀ t bd, dictGet? (l.foldl (calcStep store) (t, bd)).2 n = dictGet? bd n := by
  induction l with
  | nil => intro t bd; rfl
  | cons cq rest ih =>
      intro t bd
      rw [List.foldl_cons]
      have hrest : ∀ cq' ∈ rest, cq'.1.name ≠ n :=
        fun cq' hmem => h cq' (List.mem_cons_of_mem _ hmem)
      rcases hc : calcStep store (t, bd) cq with ⟨t', bd'⟩
      have hbd' : bd' = dictSet bd cq.1.name (entryFor store cq.1 cq.2) := by
        have h2 := calcStep_snd store (t, bd) cq
        rw [hc] at h2
        exact h2
      have := ih hrest t' bd'
      rw [this, hbd',
        dictGet?_set_ne bd cq.1.name n _ (fun hh => h cq (List.mem_cons_self _ _) hh.symm)]

theorem foldl_calcStep_entry_invariant (store : List FactorRecord)
    (P : Entry → Prop) (hP : ∀ c q, P (entryFor store c q))
    (l : List (Component × ℚ)) :
    ∀ t bd, (∀ kv ∈ bd, P kv.2) → ∀ kv ∈ (l.foldl (calcStep store) (t, bd)).2, P kv.2 := by
  induction l with
  | nil => intro t bd hbd; exact hbd
  | cons cq rest ih =>
      intro t bd hbd
      rw [List.foldl_cons]
      rcases hc : calcStep store (t, bd) cq with ⟨t', bd'⟩
      have hbd' : bd' = dictSet bd cq.1.name (entryFor store cq.1 cq.2) := by
        have h2 := calcStep_snd store (t, bd) cq
        rw [hc] at h2
        exact h2
      refine ih t' bd' ?_
      intro kv hkv
      rw [hbd'] at hkv
      rcases mem_dictSet hkv with h1 | h2
      · rw [h1]; exact hP cq.1 cq.2
      · exact hbd kv h2

theorem foldl_calcStep_nodup_keys (store : List FactorRecord) (l : List (Component × ℚ)) :
    ∀ t bd, ((bd : List (String × Entry)).map Prod.fst).Nodup →
      (((l.foldl (calcStep store) (t, bd)).2).map Prod.fst).Nodup := by
  induction l with
  | nil => intro t bd hbd; exact hbd
  | cons cq rest ih =>
      intro t bd hbd
      rw [List.foldl_cons]
      rcases hc : calcStep store (t, bd) cq with ⟨t', bd'⟩
      have hbd' : bd' = dictSet bd cq.1.name (entryFor store cq.1 cq.2) := by
        have h2 := calcStep_snd store (t, bd) cq
        rw [hc] at h2
        exact h2
      refine ih t' bd' ?_
      rw [hbd']
      exact nodup_keys_dictSet _ _ hbd

/-! ### Percentage-pass and modification lemmas -/

theorem percentEntry_emissions (total : ℚ) (e : Entry) :
    (percentEntry total e).emissions = e.emissions := by
  unfold percentEntry
  split <;> rfl

theorem dictGet?_assignPercentages (total : ℚ) (bd : List (String × Entry)) (n : String) :
    dictGet? (assignPercentages total bd) n
      = if total > 0 then (dictGet? bd n).map (percentEntry total) else dictGet? bd n := by
  unfold assignPercentages
  split
  · rw [dictGet?_map]
  · rfl

theorem entryFor_percentage (store : List FactorRecord) (c : Component) (q : ℚ) :
    (entryFor store c q).percentage = some 0 ∨ (entryFor store c q).percentage = Option.none := by
  unfold entryFor
  cases Component.calculate_emissions store c q with
  | ok e => left; rfl
  | error err => right; rfl

theorem specSuccessSum_append (store : List FactorRecord) (l l' : List (Component × ℚ)) :
    specSuccessSum store (l ++ l') = specSuccessSum store l + specSuccessSum store l' := by
  induction l with
  | nil => simp [specSuccessSum]
  | cons cq rest ih =>
      have h1 : specSuccessSum store ((cq :: rest) ++ l')
          = okEmissions store cq.1 cq.2 + specSuccessSum store (rest ++ l') := rfl
      have h2 : specSuccessSum store (cq :: rest)
          = okEmissions store cq.1 cq.2 + specSuccessSum store rest := rfl
      rw [h1, h2, ih]
      ring

theorem calcStep_params_irrel (store : List FactorRecord) (acc : ℚ × List (String × Entry))
    (c : Component) (p : MetaDict) (q : ℚ) :
    calcStep store acc ({ c with parameters := p }, q) = calcStep store acc (c, q) := rfl

/-- The per-pair rewrite `apply_modifications` performs leaves every input of
`calcStep` unchanged: only the `parameters` mapping is touched. -/
theorem calcStep_modified_pair (store : List FactorRecord) (acc : ℚ × List (String × Entry))
    (mods : List (String × MetaDict)) (cq : Component × ℚ) :
    calcStep store acc
        (let component_mods := dictGetD mods cq.1.name []
         if component_mods.isEmpty then cq else (cq.1.update_parameters component_mods, cq.2))
      = calcStep store acc cq := by
  by_cases h : (dictGetD mods cq.1.name []).isEmpty
  · simp [h]
  · simp only [h, if_false]
    rfl

theorem foldl_calcStep_modified (store : List FactorRecord) (mods : List (String × MetaDict))
    (l : List (Component × ℚ)) :
    ∀ acc, ((l.map (fun cq =>
        let component_mods := dictGetD mods cq.1.name []
        if component_mods.isEmpty then cq
        else (cq.1.update_parameters component_mods, cq.2))).foldl (calcStep store) acc)
      = l.foldl (calcStep store) acc := by
  induction l with
  | nil => intro acc; rfl
  | cons cq rest ih =>
      intro acc
      rw [List.map_cons, List.foldl_cons, List.foldl_cons, calcStep_modified_pair, ih]

/-! ### Setting `recycling_rate` leaves the other material reads unchanged -/

theorem getMaterialEmissionFactor_set_recycling (store : List FactorRecord) (m : MetaDict)
    (v : Val) :
    getMaterialEmissionFactor store (dictSet m "recycling_rate" v)
      = getMaterialEmissionFactor store m := by
  unfold getMaterialEmissionFactor requireKey
  rw [dictGet?_set_ne m "recycling_rate" "material_name" v (by decide)]

theorem materialBaseEmissions_set_recycling (m : MetaDict) (v : Val) (q f : ℚ) :
    materialBaseEmissions (dictSet m "recycling_rate" v) q f = materialBaseEmissions m q f := by
  unfold materialBaseEmissions dictGetD
  rw [dictGet?_set_ne m "recycling_rate" "density_kg_m3" v (by decide),
    dictGet?_set_ne m "recycling_rate" "volume_m3" v (by decide)]

theorem calculateTransportEmissions_set_recycling (m : MetaDict) (v : Val) (q : ℚ) :
    calculateTransportEmissions (dictSet m "recycling_rate" v) q
      = calculateTransportEmissions m q := by
  unfold calculateTransportEmissions dictGetD
  rw [dictGet?_set_ne m "recycling_rate" "transport_distance_km" v (by decide)]

theorem applyRecyclingRate_of_rate (m : MetaDict) (r e : ℚ)
    (h : dictGetD m "recycling_rate" (.num 0) = .num r) :
    applyRecyclingRate m e = .ok (if 0 < r then e * (1 - r / 100) else e) := by
  unfold applyRecyclingRate
  rw [h]
  by_cases hr : 0 < r
  · rw [if_pos hr]
    simp only [Val.gtZero, Val.toNum]
    rw [decide_eq_true hr]
    rfl
  · rw [if_neg hr]
    simp only [Val.gtZero, Val.toNum]
    rw [decide_eq_false hr]
    rfl

theorem exceptOk_bind {α β : Type} (a : α) (f : α → Except Err β) :
    (Except.ok a : Except Err α) >>= f = f a := rfl

theorem exceptError_bind {α β : Type} (e : Err) (f : α → Except Err β) :
    (Except.error e : Except Err α) >>= f = .error e := rfl

theorem requireKey_of_get (m : MetaDict) (ctx key : String) (v : Val)
    (h : dictGet? m key = some v) : requireKey m ctx key = .ok v := by
  unfold requireKey
  rw [h]

/-! ### Claim theorems -/

/-- C1: the claim says a modification merged by `apply_modifications` takes
effect on the subsequent `calculate_total_emissions`.  In the code,
`apply_modifications` merges into the component's `parameters` mapping while
every `calculate_emissions` formula reads the separate `metadata` mapping,
so modifications never change any computed emissions: the totals and
breakdown after `apply_modifications` are identical to those before it.
Concretely, overriding `efficiency` to `1` on the example building leaves
its total at `1000`, although a component whose `metadata` actually has
`efficiency = 1` yields `500`. -/
theorem C1_modifications_never_affect_emissions :
    (∀ (store : List FactorRecord) (b : Building) (mods : List (String × MetaDict)),
        Building.calculate_total_emissions store (b.apply_modifications mods)
          = Building.calculate_total_emissions store b)
    ∧ (Building.calculate_total_emissions egStore
        (egB1.apply_modifications [("hvac", [("efficiency", .num 1)])])).1 = 1000
    ∧ (Building.calculate_total_emissions egStore
        { egB1 with components := [(egHvacEff1, 1)] }).1 = 500 := by
  refine ⟨?_, ?_, ?_⟩
  · intro store b mods
    simp only [Building.apply_modifications, Building.calculate_total_emissions]
    rw [foldl_calcStep_modified]
  · with_unfolding_all rfl
  · with_unfolding_all rfl

/-- C2 counterexample: the claim says only `material_name` is required for a
Material component, so this creation should succeed; the factory instead
rejects it, listing `density_kg_m3` and `volume_m3` as missing. -/
theorem C2_counterexample_material_requires_density_volume :
    createComponent "material" "wall" [("material_name", Val.str "concrete")]
      = .error (.invalidComponentSpec ["density_kg_m3", "volume_m3"]) := by
  with_unfolding_all rfl

/-- C2 (amended): for each type tag, `create_component` validates all keys of
that type's required list — `material_name`, `density_kg_m3` and `volume_m3`
are ALL required for Material — and on failure raises the factory's
missing-metadata error listing every missing key, not just the first. -/
theorem C2_factory_validates_required_keys (component_type name : String) (metadata : MetaDict)
    (hct : component_type = "energy" ∨ component_type = "material" ∨ component_type = "water") :
    (((requiredMetadataKeys component_type).filter
        (fun p => !(dictHasKey metadata p))).isEmpty = false →
      createComponent component_type name metadata
        = .error (.invalidComponentSpec ((requiredMetadataKeys component_type).filter
            (fun p => !(dictHasKey metadata p)))))
    ∧ (((requiredMetadataKeys component_type).filter
        (fun p => !(dictHasKey metadata p))).isEmpty = true →
      ∃ c : Component, createComponent component_type name metadata = .ok c) := by
  have hval : ∀ (req : List String) (md : MetaDict) (k : Except Err Component),
      ((req.filter (fun p => !(dictHasKey md p))).isEmpty = false →
        (validateMetadata req md >>= fun _ => k)
          = .error (.invalidComponentSpec (req.filter (fun p => !(dictHasKey md p)))))
      ∧ ((req.filter (fun p => !(dictHasKey md p))).isEmpty = true →
        (validateMetadata req md >>= fun _ => k) = k) := by
    intro req md k
    constructor <;> intro hms <;> simp only [validateMetadata] <;> rw [hms] <;> rfl
  rcases hct with h | h | h
  · subst h
    have htl : "energy".toLower = "energy" := by with_unfolding_all rfl
    have hreq : requiredMetadataKeys "energy"
        = ["energy_source", "efficiency", "annual_consumption_kwh"] := by
      with_unfolding_all rfl
    constructor
    · intro hms
      rw [hreq] at hms ⊢
      unfold createComponent
      rw [htl, if_pos rfl]
      unfold createEnergyComponent
      exact (hval _ _ _).1 hms
    · intro hms
      rw [hreq] at hms
      unfold createComponent
      rw [htl, if_pos rfl]
      unfold createEnergyComponent
      exact ⟨_, (hval _ _ _).2 hms⟩
  · subst h
    have htl : "material".toLower = "material" := by with_unfolding_all rfl
    have hreq : requiredMetadataKeys "material"
        = ["material_name", "density_kg_m3", "volume_m3"] := by
      with_unfolding_all rfl
    constructor
    · intro hms
      rw [hreq] at hms ⊢
      unfold createComponent
      rw [htl, if_neg (by decide), if_pos rfl]
      unfold createMaterialComponent
      exact (hval _ _ _).1 hms
    · intro hms
      rw [hreq] at hms
      unfold createComponent
      rw [htl, if_neg (by decide), if_pos rfl]
      unfold createMaterialComponent
      exact ⟨_, (hval _ _ _).2 hms⟩
  · subst h
    have htl : "water".toLower = "water" := by with_unfolding_all rfl
    have hreq : requiredMetadataKeys "water"
        = ["annual_consumption_liters", "water_treatment_factor", "treatment_type"] := by
      with_unfolding_all rfl
    constructor
    · intro hms
      rw [hreq] at hms ⊢
      unfold createComponent
      rw [htl, if_neg (by decide), if_neg (by decide), if_pos rfl]
      unfold createWaterComponent
      exact (hval _ _ _).1 hms
    · intro hms
      rw [hreq] at hms
      unfold createComponent
      rw [htl, if_neg (by decide), if_neg (by decide), if_pos rfl]
      unfold createWaterComponent
      exact ⟨_, (hval _ _ _).2 hms⟩

/-- C2 witness: creating a Material component with only `material_name`
present fails with the error listing both missing keys. -/
theorem C2_factory_validates_required_keys_witness :
    createComponent "material" "wall" [("material_name", Val.str "concrete"), ("volume_m3", Val.num 10)]
      = .error (.invalidComponentSpec ["density_kg_m3"]) := by
  have h := (C2_factory_validates_required_keys "material" "wall"
      [("material_name", Val.str "concrete"), ("volume_m3", Val.num 10)]
      (Or.inr (Or.inl rfl))).1 (by with_unfolding_all rfl)
  exact h.trans (by with_unfolding_all rfl)

/-- C9: `calculate_total_emissions` mutates no state — threading the
building through the call returns it unchanged, so an immediately repeated
call yields the identical (total, breakdown) result. -/
theorem C9_calculate_total_emissions_idempotent (store : List FactorRecord) (b : Building) :
    (Building.calculate_total_emissions_st store b).2 = b
    ∧ (Building.calculate_total_emissions_st store
        (Building.calculate_total_emissions_st store b).2).1
      = (Building.calculate_total_emissions_st store b).1 := by
  have h : (Building.calculate_total_emissions_st store b).2 = b := by
    simp [Building.calculate_total_emissions_st, Component.calculate_emissions_st]
  exact ⟨h, by rw [h]⟩

/-- C3 counterexample: with `recycling_rate` absent the slab computes
`2880.0`, but with an explicit `recycling_rate = None` the comparison
`None > 0` raises a `TypeError` instead of returning the same value, so
`None` and absent are not equivalent. -/
theorem C3_counterexample_recycling_none_raises :
    Component.calculate_emissions egStore egSlab 1 = .ok 2880
    ∧ Component.calculate_emissions egStore
        { name := "slab", component_type := "material",
          metadata := dictSet egMaterialMeta "recycling_rate" Val.none, parameters := [] } 1
      = .error (.typeError "'>' not supported between instances of 'NoneType' and 'int'") := by
  constructor <;> with_unfolding_all rfl

/-- C3 (amended): for a material metadata mapping whose factor, base term
and transport term resolve, a `recycling_rate` of `0` and an absent
`recycling_rate` are equivalent (no reduction applied); an explicit
`recycling_rate = None` raises a `TypeError` from the `> 0` comparison;
and a rate of `50` halves the pre-transport term. -/
theorem C3_recycling_rate_semantics (store : List FactorRecord) (m : MetaDict) (q B T f : ℚ)
    (habs : dictGet? m "recycling_rate" = Option.none)
    (hf : getMaterialEmissionFactor store m = .ok f)
    (hB : materialBaseEmissions m q f = .ok B)
    (hT : calculateTransportEmissions m q = .ok T) :
    materialCalculateEmissions store m q = .ok (round2 (B + T))
    ∧ materialCalculateEmissions store (dictSet m "recycling_rate" (.num 0)) q
        = .ok (round2 (B + T))
    ∧ materialCalculateEmissions store (dictSet m "recycling_rate" Val.none) q
        = .error (.typeError "'>' not supported between instances of 'NoneType' and 'int'")
    ∧ materialCalculateEmissions store (dictSet m "recycling_rate" (.num 50)) q
        = .ok (round2 (B / 2 + T)) := by
  have hrecAbs : applyRecyclingRate m B = .ok B := by
    have hd : dictGetD m "recycling_rate" (.num 0) = .num 0 := by
      unfold dictGetD
      rw [habs]
      rfl
    have h := applyRecyclingRate_of_rate m 0 B hd
    rw [if_neg (lt_irrefl 0)] at h
    exact h
  have hrec0 : applyRecyclingRate (dictSet m "recycling_rate" (.num 0)) B = .ok B := by
    have hd : dictGetD (dictSet m "recycling_rate" (.num 0)) "recycling_rate" (.num 0)
        = .num 0 := by
      unfold dictGetD
      rw [dictGet?_set_self]
      rfl
    have h := applyRecyclingRate_of_rate _ 0 B hd
    rw [if_neg (lt_irrefl 0)] at h
    exact h
  have hrecNone : applyRecyclingRate (dictSet m "recycling_rate" Val.none) B
      = .error (.typeError "'>' not supported between instances of 'NoneType' and 'int'") := by
    unfold applyRecyclingRate dictGetD
    rw [dictGet?_set_self]
    rfl
  have hrec50 : applyRecyclingRate (dictSet m "recycling_rate" (.num 50)) B
      = .ok (B * (1 - 50 / 100)) := by
    have hd : dictGetD (dictSet m "recycling_rate" (.num 50)) "recycling_rate" (.num 0)
        = .num 50 := by
      unfold dictGetD
      rw [dictGet?_set_self]
      rfl
    have h := applyRecyclingRate_of_rate _ 50 B hd
    rw [if_pos (by norm_num : (0 : ℚ) < 50)] at h
    exact h
  have hhalf : B * (1 - 50 / 100) = B / 2 := by ring
  refine ⟨?_, ?_, ?_, ?_⟩
  · simp only [materialCalculateEmissions, hf, hB, hrecAbs, hT, exceptOk_bind]
  · simp only [materialCalculateEmissions, getMaterialEmissionFactor_set_recycling,
      materialBaseEmissions_set_recycling, calculateTransportEmissions_set_recycling,
      hf, hB, hrec0, hT, exceptOk_bind]
  · simp only [materialCalculateEmissions, getMaterialEmissionFactor_set_recycling,
      materialBaseEmissions_set_recycling, hf, hB, hrecNone, exceptOk_bind, exceptError_bind]
  · simp only [materialCalculateEmissions, getMaterialEmissionFactor_set_recycling,
      materialBaseEmissions_set_recycling, calculateTransportEmissions_set_recycling,
      hf, hB, hrec50, hT, exceptOk_bind, hhalf]

/-- C3 witness: on the concrete slab, a recycling rate of 50 yields half of
the 2880 base term. -/
theorem C3_recycling_rate_semantics_witness :
    materialCalculateEmissions egStore (dictSet egMaterialMeta "recycling_rate" (.num 50)) 1
      = .ok (round2 (2880 / 2 + 0)) :=
  (C3_recycling_rate_semantics egStore egMaterialMeta 1 2880 0 (12 / 100)
    (by with_unfolding_all rfl) (by with_unfolding_all rfl) (by with_unfolding_all rfl)
    (by with_unfolding_all rfl)).2.2.2

/-- C4: for an energy component with its required parameters present and a
uniquely resolved factor, `calculate_emissions(q)` equals
`round((annual_consumption_kwh / efficiency) * factor * q + embodied * q, 2)`
with `embodied_emissions` defaulting to `0`; a zero efficiency raises the
invalid-parameter error instead of returning a value. -/
theorem C4_energy_formula (store : List FactorRecord) (c : Component) (q a e eb : ℚ)
    (src : String) (r : FactorRecord)
    (hct : c.component_type = "energy")
    (hsrc : dictGet? c.metadata "energy_source" = some (.str src))
    (hr : lookupFactors store src "energy" = [r])
    (ha : dictGet? c.metadata "annual_consumption_kwh" = some (.num a))
    (he : dictGet? c.metadata "efficiency" = some (.num e))
    (hemb : dictGetD c.metadata "embodied_emissions" (Val.num 0) = Val.num eb) :
    (e ≠ 0 → Component.calculate_emissions store c q
        = .ok (round2 (a / e * r.emission_factor * q + eb * q)))
    ∧ (e = 0 → Component.calculate_emissions store c q
        = .error (.invalidParameter "Efficiency cannot be zero")) := by
  have hdisp : Component.calculate_emissions store c q
      = energyCalculateEmissions store c.metadata q := by
    unfold Component.calculate_emissions
    rw [hct, if_pos rfl]
  have hfac : getEnergyEmissionFactor store c.metadata = .ok r.emission_factor := by
    unfold getEnergyEmissionFactor
    rw [requireKey_of_get _ _ _ _ hsrc]
    simp only [exceptOk_bind]
    have hv : valStr (Val.str src) = src := rfl
    rw [hv, hr]
  constructor
  · intro hne
    rw [hdisp]
    simp only [energyCalculateEmissions, hfac, requireKey_of_get _ _ _ _ ha,
      requireKey_of_get _ _ _ _ he, Val.toNum, exceptOk_bind, hemb]
    rw [if_neg hne]
  · intro he0
    rw [hdisp]
    simp only [energyCalculateEmissions, hfac, requireKey_of_get _ _ _ _ ha,
      requireKey_of_get _ _ _ _ he, Val.toNum, exceptOk_bind]
    rw [if_pos he0]

/-- C4 witness: the spec's worked scenario, `effective = 2000`,
`emissions = 2000 * 0.5 * 2 = 2000.0`. -/
theorem C4_energy_formula_witness :
    Component.calculate_emissions egStore egHvac 2
      = .ok (round2 (1000 / (1 / 2) * (1 / 2) * 2 + 0 * 2)) :=
  (C4_energy_formula egStore egHvac 2 1000 (1 / 2) 0 "electricity"
    { name := "electricity", category := "energy", emission_factor := 1 / 2 }
    (by with_unfolding_all rfl) (by with_unfolding_all rfl) (by with_unfolding_all rfl)
    (by with_unfolding_all rfl) (by with_unfolding_all rfl)
    (by with_unfolding_all rfl)).1 (by norm_num)

/-- C5: with `density_kg_m3` and `volume_m3` both present and truthy
(nonzero), the base emissions term is `volume * density * factor` and is
independent of the quantity argument; with either key absent it is
`quantity * factor`. -/
theorem C5_material_base_term (m : MetaDict) (q q' f : ℚ) :
    (∀ d v : ℚ, dictGet? m "density_kg_m3" = some (.num d) →
      dictGet? m "volume_m3" = some (.num v) → d ≠ 0 → v ≠ 0 →
      materialBaseEmissions m q f = .ok (v * d * f)
        ∧ materialBaseEmissions m q f = materialBaseEmissions m q' f)
    ∧ ((dictGet? m "density_kg_m3" = Option.none ∨ dictGet? m "volume_m3" = Option.none) →
      materialBaseEmissions m q f = .ok (q * f)) := by
  constructor
  · intro d v hd hv hd0 hv0
    have hcond : ((dictGetD m "density_kg_m3" Val.none).truthy
        && (dictGetD m "volume_m3" Val.none).truthy) = true := by
      unfold dictGetD
      rw [hd, hv]
      simp [Val.truthy, hd0, hv0]
    have hgen : ∀ qq : ℚ, materialBaseEmissions m qq f = .ok (v * d * f) := by
      intro qq
      unfold materialBaseEmissions
      rw [if_pos hcond]
      simp only [dictGetD, hd, hv, Option.getD, Val.toNum, exceptOk_bind]
    exact ⟨hgen q, (hgen q).trans (hgen q').symm⟩
  · intro habs
    have hcond : ((dictGetD m "density_kg_m3" Val.none).truthy
        && (dictGetD m "volume_m3" Val.none).truthy) = false := by
      rcases habs with h | h
      · unfold dictGetD
        rw [h]
        simp [Val.truthy]
      · unfold dictGetD
        rw [h]
        simp [Val.truthy]
    have hne : ¬(((dictGetD m "density_kg_m3" Val.none).truthy
        && (dictGetD m "volume_m3" Val.none).truthy) = true) := by
      rw [hcond]
      exact Bool.false_ne_true
    unfold materialBaseEmissions
    rw [if_neg hne]

/-- C5 witness: on the concrete slab metadata the base term is
`10 * 2400 * 0.12` for any quantity. -/
theorem C5_material_base_term_witness :
    materialBaseEmissions egMaterialMeta 1 (12 / 100) = .ok (10 * 2400 * (12 / 100))
    ∧ materialBaseEmissions egMaterialMeta 1 (12 / 100)
      = materialBaseEmissions egMaterialMeta 5 (12 / 100) :=
  (C5_material_base_term egMaterialMeta 1 5 (12 / 100)).1 2400 10
    (by with_unfolding_all rfl) (by with_unfolding_all rfl) (by norm_num) (by norm_num)

/-- C6: for each component variant, factor resolution raises the
not-found error on zero matches, the ambiguous error on two or more
matches, and returns the single record's `emission_factor` on exactly
one match. -/
theorem C6_factor_resolution (store : List FactorRecord) (m : MetaDict) (key : String) :
    (dictGet? m "energy_source" = some (.str key) →
        (lookupFactors store key "energy" = [] →
          getEnergyEmissionFactor store m = .error (.factorNotFound key))
      ∧ (∀ r r2 rest, lookupFactors store key "energy" = r :: r2 :: rest →
          getEnergyEmissionFactor store m = .error (.ambiguousFactor key))
      ∧ (∀ r, lookupFactors store key "energy" = [r] →
          getEnergyEmissionFactor store m = .ok r.emission_factor))
    ∧ (dictGet? m "material_name" = some (.str key) →
        (lookupFactors store key "material" = [] →
          getMaterialEmissionFactor store m = .error (.factorNotFound key))
      ∧ (∀ r r2 rest, lookupFactors store key "material" = r :: r2 :: rest →
          getMaterialEmissionFactor store m = .error (.ambiguousFactor key))
      ∧ (∀ r, lookupFactors store key "material" = [r] →
          getMaterialEmissionFactor store m = .ok r.emission_factor))
    ∧ (dictGet? m "treatment_type" = some (.str key) →
        (lookupFactors store key "water" = [] →
          getWaterEmissionFactor store m = .error (.factorNotFound key))
      ∧ (∀ r r2 rest, lookupFactors store key "water" = r :: r2 :: rest →
          getWaterEmissionFactor store m = .error (.ambiguousFactor key))
      ∧ (∀ r, lookupFactors store key "water" = [r] →
          getWaterEmissionFactor store m = .ok r.emission_factor)) := by
  refine ⟨?_, ?_, ?_⟩
  · intro hkey
    have hbase : getEnergyEmissionFactor store m
        = (match lookupFactors store key "energy" with
           | [] => .error (.factorNotFound key)
           | [r] => .ok r.emission_factor
           | _ :: _ :: _ => .error (.ambiguousFactor key)) := by
      unfold getEnergyEmissionFactor
      rw [requireKey_of_get _ _ _ _ hkey]
      rfl
    refine ⟨?_, ?_, ?_⟩
    · intro hl; rw [hbase, hl]
    · intro r r2 rest hl; rw [hbase, hl]
    · intro r hl; rw [hbase, hl]
  · intro hkey
    have hbase : getMaterialEmissionFactor store m
        = (match lookupFactors store key "material" with
           | [] => .error (.factorNotFound key)
           | [r] => .ok r.emission_factor
           | _ :: _ :: _ => .error (.ambiguousFactor key)) := by
      unfold getMaterialEmissionFactor
      rw [requireKey_of_get _ _ _ _ hkey]
      rfl
    refine ⟨?_, ?_, ?_⟩
    · intro hl; rw [hbase, hl]
    · intro r r2 rest hl; rw [hbase, hl]
    · intro r hl; rw [hbase, hl]
  · intro hkey
    have hbase : getWaterEmissionFactor store m
        = (match lookupFactors store key "water" with
           | [] => .error (.factorNotFound key)
           | [r] => .ok r.emission_factor
           | _ :: _ :: _ => .error (.ambiguousFactor key)) := by
      unfold getWaterEmissionFactor
      rw [requireKey_of_get _ _ _ _ hkey]
      rfl
    refine ⟨?_, ?_, ?_⟩
    · intro hl; rw [hbase, hl]
    · intro r r2 rest hl; rw [hbase, hl]
    · intro r hl; rw [hbase, hl]

/-- C6 witness: against an empty factor table every variant's resolution
fails with the not-found error; with a two-record table it fails as
ambiguous; with the example table it returns the single factor. -/
theorem C6_factor_resolution_witness :
    getEnergyEmissionFactor [] [("energy_source", Val.str "grid")]
      = .error (.factorNotFound "grid")
    ∧ getEnergyEmissionFactor
        [{ name := "grid", category := "energy", emission_factor := 1 },
         { name := "grid", category := "energy", emission_factor := 2 }]
        [("energy_source", Val.str "grid")]
      = .error (.ambiguousFactor "grid")
    ∧ getEnergyEmissionFactor egStore egEnergyMeta = .ok (1 / 2) := by
  refine ⟨?_, ?_, ?_⟩
  · exact ((C6_factor_resolution [] [("energy_source", Val.str "grid")] "grid").1
      (by with_unfolding_all rfl)).1 (by with_unfolding_all rfl)
  · exact ((C6_factor_resolution
      [{ name := "grid", category := "energy", emission_factor := 1 },
       { name := "grid", category := "energy", emission_factor := 2 }]
      [("energy_source", Val.str "grid")] "grid").1
      (by with_unfolding_all rfl)).2.1
      { name := "grid", category := "energy", emission_factor := 1 }
      { name := "grid", category := "energy", emission_factor := 2 } []
      (by with_unfolding_all rfl)
  · exact ((C6_factor_resolution egStore egEnergyMeta "electricity").1
      (by with_unfolding_all rfl)).2.2
      { name := "electricity", category := "energy", emission_factor := 1 / 2 }
      (by with_unfolding_all rfl)

theorem specSuccessSum_cons (store : List FactorRecord) (cq : Component × ℚ)
    (l : List (Component × ℚ)) :
    specSuccessSum store (cq :: l) = okEmissions store cq.1 cq.2 + specSuccessSum store l := rfl

theorem keys_assignPercentages (total : ℚ) (bd : List (String × Entry)) :
    (assignPercentages total bd).map Prod.fst = bd.map Prod.fst := by
  unfold assignPercentages
  split
  · induction bd with
    | nil => rfl
    | cons ke rest ih => simp only [List.map_cons, ih]
  · rfl

/-- C7: `calculate_total_emissions` has partial-failure semantics — the
returned total is the (rounded) sum of only the successfully computed
emissions, and a component whose calculation raises gets a breakdown entry
with zero emissions, its quantity and type, and the error message, while
iteration continues over the remaining components. -/
theorem C7_partial_failure (store : List FactorRecord) (b : Building) :
    (Building.calculate_total_emissions store b).1 = round2 (specSuccessSum store b.components)
    ∧ ∀ (c : Component) (q : ℚ) (err : Err) (l1 l2 : List (Component × ℚ)),
        b.components = l1 ++ (c, q) :: l2 →
        Component.calculate_emissions store c q = .error err →
        (∀ cq ∈ l2, cq.1.name ≠ c.name) →
        dictGet? (Building.calculate_total_emissions store b).2 c.name
          = some { emissions := 0, quantity := q, type := c.component_type,
                   percentage := Option.none, error := some err.msg } := by
  constructor
  · simp only [Building.calculate_total_emissions]
    rw [foldl_calcStep_fst, zero_add]
  · intro c q err l1 l2 hsplit herr hl2
    have hbd : dictGet? (b.components.foldl (calcStep store) (0, [])).2 c.name
        = some (entryFor store c q) := by
      rw [hsplit, List.foldl_append, List.foldl_cons]
      rcases hc : calcStep store (l1.foldl (calcStep store) (0, [])) (c, q) with ⟨t2, bd2⟩
      have hbd2 : bd2 = dictSet (l1.foldl (calcStep store) (0, [])).2 c.name
          (entryFor store c q) := by
        have h2 := calcStep_snd store (l1.foldl (calcStep store) (0, [])) (c, q)
        rw [hc] at h2
        exact h2
      rw [foldl_calcStep_get_of_not_mem store c.name l2 hl2 t2 bd2, hbd2,
        dictGet?_set_self]
    have hentry : entryFor store c q
        = { emissions := 0, quantity := q, type := c.component_type,
            percentage := Option.none, error := some err.msg } := by
      unfold entryFor
      rw [herr]
    simp only [Building.calculate_total_emissions]
    rw [dictGet?_assignPercentages]
    by_cases hpos : (b.components.foldl (calcStep store) (0, [])).1 > 0
    · rw [if_pos hpos, hbd, hentry]
      simp [percentEntry]
    · rw [if_neg hpos, hbd, hentry]

/-- C7 witness: in the example building the failing boiler is recorded with
zero emissions and the error message while the total still counts the
working component. -/
theorem C7_partial_failure_witness :
    (Building.calculate_total_emissions egStore egBuilding).1
        = round2 (specSuccessSum egStore egBuilding.components)
    ∧ dictGet? (Building.calculate_total_emissions egStore egBuilding).2 "boiler"
        = some { emissions := 0, quantity := 2, type := "energy",
                 percentage := Option.none,
                 error := some "No emission factors found for coal" } := by
  have h := C7_partial_failure egStore egBuilding
  refine ⟨h.1, ?_⟩
  have h2 := h.2 egBroken 2 (.factorNotFound "coal") [(egHvac, 1)] []
    (by with_unfolding_all rfl) (by with_unfolding_all rfl)
    (by intro cq hmem; simp at hmem)
  exact h2

/-- C8: percentages are a pure second pass over the built breakdown — when
the pre-rounding total is positive every entry with positive emissions gets
`round(emissions / total * 100, 2)` with the pre-rounding total as the
denominator, the returned total is rounded only at the end, and when the
total is zero no entry carries a nonzero percentage. -/
theorem C8_percentage_second_pass (store : List FactorRecord) (b : Building) :
    (Building.calculate_total_emissions store b).1 = round2 (specSuccessSum store b.components)
    ∧ (0 < specSuccessSum store b.components →
        ∀ n en, dictGet? (Building.calculate_total_emissions store b).2 n = some en →
          0 < en.emissions →
          en.percentage = some (round2 (en.emissions / specSuccessSum store b.components * 100)))
    ∧ (specSuccessSum store b.components = 0 →
        ∀ n en, dictGet? (Building.calculate_total_emissions store b).2 n = some en →
          en.percentage = some 0 ∨ en.percentage = Option.none) := by
  have hfst : (b.components.foldl (calcStep store) (0, [])).1
      = specSuccessSum store b.components := by
    rw [foldl_calcStep_fst, zero_add]
  refine ⟨?_, ?_, ?_⟩
  · simp only [Building.calculate_total_emissions]
    rw [hfst]
  · intro hpos n en hget hen
    simp only [Building.calculate_total_emissions] at hget
    rw [dictGet?_assignPercentages, hfst, if_pos hpos] at hget
    rcases hopt : dictGet? (b.components.foldl (calcStep store) (0, [])).2 n with _ | e0
    · rw [hopt] at hget
      exact absurd hget (by simp)
    · rw [hopt] at hget
      simp only [Option.map_some'] at hget
      have he : percentEntry (specSuccessSum store b.components) e0 = en :=
        Option.some.inj hget
      have hem : e0.emissions = en.emissions := by
        rw [← he, percentEntry_emissions]
      have hcalc : en.percentage
          = some (round2 (e0.emissions / specSuccessSum store b.components * 100)) := by
        rw [← he]
        unfold percentEntry
        rw [if_pos (by rw [hem]; exact hen)]
      rw [hcalc, hem]
  · intro hzero n en hget
    simp only [Building.calculate_total_emissions] at hget
    rw [dictGet?_assignPercentages, hfst,
      if_neg (by rw [hzero]; exact lt_irrefl 0)] at hget
    exact foldl_calcStep_entry_invariant store
      (fun e => e.percentage = some 0 ∨ e.percentage = Option.none)
      (entryFor_percentage store) b.components 0 []
      (by intro kv hkv; simp at hkv) (n, en) (dictGet?_mem hget)

/-- C8 witness: in the example building the working component holds 100% of
the positive total. -/
theorem C8_percentage_second_pass_witness :
    Entry.percentage
        { emissions := 1000, quantity := 1, type := "energy",
          percentage := some 100, error := Option.none }
      = some (round2 (1000 / specSuccessSum egStore egBuilding.components * 100)) := by
  have h := (C8_percentage_second_pass egStore egBuilding).2.1
    (by with_unfolding_all decide) "hvac"
    { emissions := 1000, quantity := 1, type := "energy",
      percentage := some 100, error := Option.none }
    (by with_unfolding_all rfl) (by norm_num)
  exact h

/-- C10: with two same-named components, the total counts both components'
emissions, the breakdown keeps a single entry under that name — the one
recorded by the last same-named component processed — and on the concrete
duplicate building the breakdown's emissions do not sum to the total. -/
theorem C10_duplicate_names (store : List FactorRecord) (b : Building)
    (c1 c2 : Component) (q1 q2 : ℚ) (l1 l2 l3 : List (Component × ℚ))
    (hsplit : b.components = l1 ++ (c1, q1) :: (l2 ++ (c2, q2) :: l3))
    (hname : c1.name = c2.name)
    (hlast : ∀ cq ∈ l3, cq.1.name ≠ c2.name) :
    (Building.calculate_total_emissions store b).1
      = round2 (specSuccessSum store l1 + okEmissions store c1 q1
          + specSuccessSum store l2 + okEmissions store c2 q2 + specSuccessSum store l3)
    ∧ dictGet? (Building.calculate_total_emissions store b).2 c2.name
        = some (if 0 < specSuccessSum store b.components
            then percentEntry (specSuccessSum store b.components) (entryFor store c2 q2)
            else entryFor store c2 q2)
    ∧ ((Building.calculate_total_emissions store b).2.map Prod.fst).Nodup
    ∧ (Building.calculate_total_emissions egStore egDupBuilding).2.foldl
        (fun acc ke => acc + ke.2.emissions) 0
      ≠ (Building.calculate_total_emissions egStore egDupBuilding).1 := by
  have hfst : (b.components.foldl (calcStep store) (0, [])).1
      = specSuccessSum store b.components := by
    rw [foldl_calcStep_fst, zero_add]
  refine ⟨?_, ?_, ?_, ?_⟩
  · simp only [Building.calculate_total_emissions]
    rw [hfst, hsplit, specSuccessSum_append, specSuccessSum_cons, specSuccessSum_append,
      specSuccessSum_cons]
    congr 1
    ring
  · have hbd : dictGet? (b.components.foldl (calcStep store) (0, [])).2 c2.name
        = some (entryFor store c2 q2) := by
      rw [hsplit, List.foldl_append, List.foldl_cons, List.foldl_append, List.foldl_cons]
      rcases hc : calcStep store
          (l2.foldl (calcStep store)
            (calcStep store (l1.foldl (calcStep store) (0, [])) (c1, q1))) (c2, q2)
        with ⟨t2, bd2⟩
      have hbd2 : bd2 = dictSet (l2.foldl (calcStep store)
          (calcStep store (l1.foldl (calcStep store) (0, [])) (c1, q1))).2 c2.name
          (entryFor store c2 q2) := by
        have h2 := calcStep_snd store
          (l2.foldl (calcStep store)
            (calcStep store (l1.foldl (calcStep store) (0, [])) (c1, q1))) (c2, q2)
        rw [hc] at h2
        exact h2
      rw [foldl_calcStep_get_of_not_mem store c2.name l3 hlast t2 bd2, hbd2,
        dictGet?_set_self]
    simp only [Building.calculate_total_emissions]
    rw [dictGet?_assignPercentages, hfst]
    by_cases hpos : 0 < specSuccessSum store b.components
    · rw [if_pos hpos, if_pos hpos, hbd]
      simp
    · rw [if_neg hpos, if_neg hpos, hbd]
  · simp only [Building.calculate_total_emissions]
    rw [keys_assignPercentages]
    exact foldl_calcStep_nodup_keys store b.components 0 [] (by simp)
  · with_unfolding_all decide

/-- C10 witness: in the duplicate building the surviving "hvac" entry is the
second component's (1500 at 60%), while the total is 2500. -/
theorem C10_duplicate_names_witness :
    dictGet? (Building.calculate_total_emissions egStore egDupBuilding).2 "hvac"
      = some { emissions := 1500, quantity := 3, type := "energy",
               percentage := some 60, error := Option.none } := by
  have h := (C10_duplicate_names egStore egDupBuilding egHvac egHvacEff1 1 3 [] [] []
    (by with_unfolding_all rfl) rfl (by intro cq hmem; simp at hmem)).2.1
  exact h.trans (by with_unfolding_all rfl)

end SBE
